import Mathlib

/-!
Shallow embedding of the preterm-baby data-tracking application
(Django project `preterm_baby_tracker`, app `tracking`).

Dates are modelled as integers counting days (the code only ever adds
`timedelta(days = 7)` to a date and subtracts two dates taking `.days`,
so day arithmetic on `Int` is exact).  Nullable text columns
(`TextField(blank=True, null=True)`) are `Option String`; Python
truthiness of such a value (`None` and `""` are falsy, any other string
truthy) is `pyTruthy` below.  Fallible Python code (attribute access on
a missing attribute raises `AttributeError`) is modelled with `Except`.
Sites are identified by their primary key (`siteId : Nat`) in the model
and view layer, and by their unique `name : String` in the form layer,
where the code formats the site into the study id with `f-string`
interpolation of `str(site)`.
-/

namespace Tracking

/-- Python truthiness of an `Option String` column or POST value:
`None` and the empty string are falsy, any other string is truthy. -/
def pyTruthy : Option String → Bool
  | none => false
  | some s => !s.isEmpty

/-- `tracking.models.Participant` (src/tracking/models.py 59-128): the
columns the tracked claims read or write.  `siteId` stands for the
non-null `site` foreign key; `_at` timestamps and `_by` user foreign
keys are kept abstract as integers / user ids.  Omitted columns
(`screening_session`, `created_at`) are touched by none of the code
under verification. -/
structure Participant where
  study_id : String
  siteId : Nat
  enrollment_date : Int
  due_date : Int
  monitor_downloaded : Bool
  monitor_downloaded_comment : Option String
  monitor_downloaded_at : Option Int
  monitor_downloaded_by : Option Nat
  ultrasound_downloaded : Bool
  ultrasound_downloaded_comment : Option String
  ultrasound_downloaded_at : Option Int
  ultrasound_downloaded_by : Option Nat
  case_report_form_uploaded : Bool
  case_report_form_uploaded_comment : Option String
  video_laryngoscope_uploaded : Bool
  video_laryngoscope_uploaded_comment : Option String
  rop_final_report_uploaded : Bool
  rop_final_report_uploaded_comment : Option String
  head_ultrasound_images_uploaded : Bool
  head_ultrasound_images_uploaded_comment : Option String
  head_ultrasound_report_uploaded : Bool
  head_ultrasound_report_uploaded_comment : Option String
  cost_effectiveness_data_uploaded : Bool
  cost_effectiveness_data_uploaded_comment : Option String
  blood_culture_done : Bool
  blood_culture_done_comment : Option String
  admission_notes_day1_uploaded : Bool
  admission_notes_day1_uploaded_comment : Option String
  admission_notes_24hr_uploaded : Bool
  admission_notes_24hr_uploaded_comment : Option String
  vital_sign_monitoring_done : Bool
  vital_sign_monitoring_done_comment : Option String
  date_of_birth : Option Int
deriving DecidableEq, Repr

/-- `Participant.save` (models.py 136-139): always recomputes `due_date`
as `enrollment_date + timedelta(days=7)` before persisting. -/
def Participant.save (p : Participant) : Participant :=
  { p with due_date := p.enrollment_date + 7 }

/-- `Participant.days_remaining` (models.py 144-147):
`(self.due_date - timezone.localdate()).days`, as a function of the
current date `today`. -/
def Participant.days_remaining (p : Participant) (today : Int) : Int :=
  p.due_date - today

/-- The branch cascade of `Participant.status_color` (models.py 149-158)
as a function of the local variable `days = self.days_remaining`. -/
def statusColorOf (days : Int) : String :=
  if days ≥ 4 then "green"
  else if 2 ≤ days ∧ days ≤ 3 then "yellow"
  else if 0 ≤ days ∧ days ≤ 1 then "red"
  else "overdue"

/-- `Participant.status_color` (models.py 149-158). -/
def Participant.status_color (p : Participant) (today : Int) : String :=
  statusColorOf (p.days_remaining today)

/-- The `required_items` list of `Participant.is_completed`
(models.py 165-176), in source order: (checkbox, comment) pairs. -/
def Participant.required_items (p : Participant) : List (Bool × Option String) :=
  [ (p.monitor_downloaded, p.monitor_downloaded_comment),
    (p.ultrasound_downloaded, p.ultrasound_downloaded_comment),
    (p.head_ultrasound_images_uploaded, p.head_ultrasound_images_uploaded_comment),
    (p.head_ultrasound_report_uploaded, p.head_ultrasound_report_uploaded_comment),
    (p.case_report_form_uploaded, p.case_report_form_uploaded_comment),
    (p.video_laryngoscope_uploaded, p.video_laryngoscope_uploaded_comment),
    (p.rop_final_report_uploaded, p.rop_final_report_uploaded_comment),
    (p.cost_effectiveness_data_uploaded, p.cost_effectiveness_data_uploaded_comment),
    (p.admission_notes_day1_uploaded, p.admission_notes_day1_uploaded_comment) ]

/-- The loop body of `is_completed` (models.py 178-181): return `False`
on the first pair whose checkbox is falsy and whose comment is falsy,
else `True`. -/
def checkItems : List (Bool × Option String) → Bool
  | [] => true
  | (cb, c) :: rest => if !cb && !pyTruthy c then false else checkItems rest

/-- `Participant.is_completed` (models.py 160-181). -/
def Participant.is_completed (p : Participant) : Bool :=
  checkItems p.required_items

/-- `getattr(p, "rop_exam_done", False)` (send_ro_reminders.py 33, 37):
the `Participant` model declares no `rop_exam_done` attribute, so the
`getattr` default applies and the read always yields `False`. -/
def ropExamDone (_p : Participant) : Bool := false

/-- Missing-item collection of `Command.handle`
(send_ro_reminders.py 22-51), labels appended in source order. -/
def missingItems (p : Participant) : List String :=
  (if !(p.monitor_downloaded || pyTruthy p.monitor_downloaded_comment)
     then ["Monitor Data"] else []) ++
  (if !(p.ultrasound_downloaded || pyTruthy p.ultrasound_downloaded_comment)
     then ["Ultrasound Data"] else []) ++
  (if !(p.case_report_form_uploaded || pyTruthy p.case_report_form_uploaded_comment)
     then ["Case Report Form"] else []) ++
  (if !(p.video_laryngoscope_uploaded || pyTruthy p.video_laryngoscope_uploaded_comment)
     then ["Video Laryngoscope"] else []) ++
  (if !(ropExamDone p) then ["ROP Exam"] else []) ++
  (if ropExamDone p then
     (if !p.rop_final_report_uploaded then ["ROP Final Report"] else [])
   else []) ++
  (if !(p.head_ultrasound_images_uploaded || pyTruthy p.head_ultrasound_images_uploaded_comment)
     then ["Head US Images"] else []) ++
  (if !(p.head_ultrasound_report_uploaded || pyTruthy p.head_ultrasound_report_uploaded_comment)
     then ["Head US Report"] else []) ++
  (if !(p.cost_effectiveness_data_uploaded || pyTruthy p.cost_effectiveness_data_uploaded_comment)
     then ["Cost Effectiveness Data"] else []) ++
  (if !(p.blood_culture_done || pyTruthy p.blood_culture_done_comment)
     then ["Blood Culture"] else []) ++
  (if !(p.admission_notes_day1_uploaded || pyTruthy p.admission_notes_day1_uploaded_comment)
     then ["Admission Notes Day 1"] else [])

/-- The `rop_note` block (send_ro_reminders.py 56-62): when "ROP Exam" is
among the missing items the code evaluates `p.rop_due_date`; the
`Participant` model declares no `rop_due_date` attribute, so that plain
attribute access raises `AttributeError`, modelled as `Except.error`. -/
def ropNote (p : Participant) : Except String String :=
  if "ROP Exam" ∈ missingItems p then
    Except.error "AttributeError: rop_due_date"
  else Except.ok ""

/-- The two reminder groups of `Command.handle`
(send_ro_reminders.py 12). -/
inductive ReminderGroup where
  | due
  | overdue
deriving DecidableEq, Repr

/-- The grouping expression of `Command.handle`
(send_ro_reminders.py 72-75): `days in [2, 1, 0]` goes to `due`,
`days < 0` to `overdue`, anything else to neither. -/
def groupOf (days : Int) : Option ReminderGroup :=
  if days = 2 ∨ days = 1 ∨ days = 0 then some ReminderGroup.due
  else if days < 0 then some ReminderGroup.overdue
  else none

/-- The per-participant loop body of `Command.handle`
(send_ro_reminders.py 18-75): compute `days` and the missing items,
`continue` when nothing is missing, evaluate the rop note (which can
raise), then group.  Returns the group the participant lands in, or an
error when the body raises. -/
def processParticipant (p : Participant) (today : Int) :
    Except String (Option ReminderGroup) :=
  let days := p.days_remaining today
  let missing := missingItems p
  if missing = [] then Except.ok none
  else
    match ropNote p with
    | Except.error e => Except.error e
    | Except.ok _ => Except.ok (groupOf days)

/-- `tracking.models.CustomUser`: the fields the views read.  `role` is
an `Option` because views read it with `getattr(request.user, "role",
None)`; `site` is the nullable site foreign key. -/
structure User where
  id : Nat
  is_superuser : Bool
  role : Option String
  site : Option Nat
deriving DecidableEq, Repr

/-- `get_user_participants` (views.py 28-30): all participants for a
superuser, else those of the user's site. -/
def get_user_participants (u : User) (db : List Participant) :
    List Participant :=
  if u.is_superuser then db
  else db.filter (fun p => u.site == some p.siteId)

/-- The `all([...])` test of `completed_participants`
(views.py 56-62): ten checkboxes, comments not consulted. -/
def completedCheckboxes (p : Participant) : Bool :=
  p.monitor_downloaded && p.ultrasound_downloaded &&
  p.case_report_form_uploaded && p.video_laryngoscope_uploaded &&
  p.rop_final_report_uploaded && p.head_ultrasound_images_uploaded &&
  p.head_ultrasound_report_uploaded && p.cost_effectiveness_data_uploaded &&
  p.blood_culture_done && p.admission_notes_day1_uploaded

/-- `completed_participants` (views.py 52-64). -/
def completed_participants (ps : List Participant) : List Participant :=
  ps.filter completedCheckboxes

/-- The gate of `download_completed_pdf` (views.py 466):
`role != 'AD' and not is_superuser` redirects away. -/
def downloadGate (u : User) : Bool :=
  !(u.role == some "AD") && !u.is_superuser

/-- The `all([...])` test of the `fully_completed` list comprehension
(views.py 472-481): six checkboxes, comments not consulted. -/
def fullyCompletedCheck (p : Participant) : Bool :=
  p.head_ultrasound_images_uploaded && p.head_ultrasound_report_uploaded &&
  p.video_laryngoscope_uploaded && p.rop_final_report_uploaded &&
  p.cost_effectiveness_data_uploaded && p.blood_culture_done

/-- `download_completed_pdf` (views.py 464-481), up to the list of
participants rendered into the PDF: `none` models the redirect for an
unauthorized user; otherwise the visible participants are filtered by
`monitor_downloaded=True, ultrasound_downloaded=True` (the queryset
filter) and then by the six-checkbox comprehension. -/
def download_completed_pdf (u : User) (db : List Participant) :
    Option (List Participant) :=
  if downloadGate u = true then none
  else
    let participants := (get_user_participants u db).filter
      (fun p => p.monitor_downloaded && p.ultrasound_downloaded)
    some (participants.filter fullyCompletedCheck)

/-- Responses of the quick-mark views (views.py 428-459). -/
inductive MarkResponse where
  | forbidden
  | redirectRoDashboard
deriving DecidableEq, Repr

/-- The permission guard of `mark_monitor_downloaded` and
`mark_ultrasound_downloaded` (views.py 432-434, 449-451):
`not is_superuser and (participant.site != user.site or role not in
('RO', 'AD'))`. -/
def markGuardFails (u : User) (p : Participant) : Bool :=
  !u.is_superuser &&
    (!(some p.siteId == u.site) || !(u.role == some "RO" || u.role == some "AD"))

/-- `mark_monitor_downloaded` (views.py 428-442). -/
def mark_monitor_downloaded (u : User) (method : String) (p : Participant)
    (now : Int) : MarkResponse × Participant :=
  if method = "POST" then
    if markGuardFails u p = true then (MarkResponse.forbidden, p)
    else
      (MarkResponse.redirectRoDashboard,
        Participant.save { p with monitor_downloaded := true,
                                  monitor_downloaded_at := some now,
                                  monitor_downloaded_by := some u.id })
  else (MarkResponse.redirectRoDashboard, p)

/-- `mark_ultrasound_downloaded` (views.py 445-459). -/
def mark_ultrasound_downloaded (u : User) (method : String) (p : Participant)
    (now : Int) : MarkResponse × Participant :=
  if method = "POST" then
    if markGuardFails u p = true then (MarkResponse.forbidden, p)
    else
      (MarkResponse.redirectRoDashboard,
        Participant.save { p with ultrasound_downloaded := true,
                                  ultrasound_downloaded_at := some now,
                                  ultrasound_downloaded_by := some u.id })
  else (MarkResponse.redirectRoDashboard, p)

/-- The authorization condition of the quick-mark views, spelled out:
superuser, or RO/AD of the participant's site. -/
def canMark (u : User) (p : Participant) : Prop :=
  u.is_superuser = true ∨
    (some p.siteId = u.site ∧ (u.role = some "RO" ∨ u.role = some "AD"))

/-- Responses of `update_participant` (views.py 381-425). -/
inductive UpdateResponse where
  | forbidden
  | redirectRoDashboard
  | redirectChooseDashboard
  | redirectDetail
deriving DecidableEq, Repr

/-- `x or ""` on an optional POST value. -/
def pyOrEmpty : Option String → String
  | none => ""
  | some s => s

/-- Python `str.strip()`: drop leading and trailing whitespace. -/
def pyStrip (s : String) : String :=
  String.mk (((s.data.dropWhile Char.isWhitespace).reverse.dropWhile
    Char.isWhitespace).reverse)

/-- The comment normalization of `update_participant` (views.py 408-409):
`comment_value = (request.POST.get(f) or "").strip()`, stored as `None`
when empty. -/
def normComment (raw : Option String) : Option String :=
  let s := pyStrip (pyOrEmpty raw)
  if s.isEmpty then none else some s

/-- The checkbox normalization of `update_participant`
(views.py 411-413): true when the POST checkbox value is truthy or the
stripped comment is non-empty. -/
def normCheckbox (cbRaw raw : Option String) : Bool :=
  pyTruthy cbRaw || !(pyStrip (pyOrEmpty raw)).isEmpty

/-- The `for checkbox_field, comment_field in ro_fields` loop of
`update_participant` (views.py 391-413) applied to all twelve pairs. -/
def appliedUpdate (post : String → Option String) (p : Participant) :
    Participant :=
  { p with
    monitor_downloaded_comment := normComment (post "monitor_downloaded_comment")
    monitor_downloaded :=
      normCheckbox (post "monitor_downloaded") (post "monitor_downloaded_comment")
    ultrasound_downloaded_comment := normComment (post "ultrasound_downloaded_comment")
    ultrasound_downloaded :=
      normCheckbox (post "ultrasound_downloaded") (post "ultrasound_downloaded_comment")
    case_report_form_uploaded_comment := normComment (post "case_report_form_uploaded_comment")
    case_report_form_uploaded :=
      normCheckbox (post "case_report_form_uploaded") (post "case_report_form_uploaded_comment")
    video_laryngoscope_uploaded_comment := normComment (post "video_laryngoscope_uploaded_comment")
    video_laryngoscope_uploaded :=
      normCheckbox (post "video_laryngoscope_uploaded") (post "video_laryngoscope_uploaded_comment")
    rop_final_report_uploaded_comment := normComment (post "rop_final_report_uploaded_comment")
    rop_final_report_uploaded :=
      normCheckbox (post "rop_final_report_uploaded") (post "rop_final_report_uploaded_comment")
    head_ultrasound_images_uploaded_comment := normComment (post "head_ultrasound_images_uploaded_comment")
    head_ultrasound_images_uploaded :=
      normCheckbox (post "head_ultrasound_images_uploaded") (post "head_ultrasound_images_uploaded_comment")
    head_ultrasound_report_uploaded_comment := normComment (post "head_ultrasound_report_uploaded_comment")
    head_ultrasound_report_uploaded :=
      normCheckbox (post "head_ultrasound_report_uploaded") (post "head_ultrasound_report_uploaded_comment")
    cost_effectiveness_data_uploaded_comment := normComment (post "cost_effectiveness_data_uploaded_comment")
    cost_effectiveness_data_uploaded :=
      normCheckbox (post "cost_effectiveness_data_uploaded") (post "cost_effectiveness_data_uploaded_comment")
    blood_culture_done_comment := normComment (post "blood_culture_done_comment")
    blood_culture_done :=
      normCheckbox (post "blood_culture_done") (post "blood_culture_done_comment")
    admission_notes_day1_uploaded_comment := normComment (post "admission_notes_day1_uploaded_comment")
    admission_notes_day1_uploaded :=
      normCheckbox (post "admission_notes_day1_uploaded") (post "admission_notes_day1_uploaded_comment")
    admission_notes_24hr_uploaded_comment := normComment (post "admission_notes_24hr_uploaded_comment")
    admission_notes_24hr_uploaded :=
      normCheckbox (post "admission_notes_24hr_uploaded") (post "admission_notes_24hr_uploaded_comment")
    vital_sign_monitoring_done_comment := normComment (post "vital_sign_monitoring_done_comment")
    vital_sign_monitoring_done :=
      normCheckbox (post "vital_sign_monitoring_done") (post "vital_sign_monitoring_done_comment") }

/-- `update_participant` (views.py 381-425): permission guard, then on
POST the twelve-pair update followed by `participant.save()` and a
role-aware redirect. -/
def update_participant (u : User) (method : String)
    (post : String → Option String) (p : Participant) :
    UpdateResponse × Participant :=
  if ¬(u.role = some "RO" ∨ u.role = some "AD" ∨ u.is_superuser = true) then
    (UpdateResponse.forbidden, p)
  else if method = "POST" then
    (if u.role = some "RO" then UpdateResponse.redirectRoDashboard
     else if u.role = some "AD" ∨ u.is_superuser = true then
       UpdateResponse.redirectChooseDashboard
     else UpdateResponse.redirectDetail,
     (appliedUpdate post p).save)
  else (UpdateResponse.redirectDetail, p)

/-- The per-pair postcondition claimed for `update_participant`: the
stored comment is `None` exactly when the submitted comment is blank
after trimming, the checkbox is true exactly when the box was checked or
the trimmed comment is non-empty, and a non-null comment implies a true
checkbox. -/
def pairOK (storedCb : Bool) (storedC : Option String)
    (cbRaw cRaw : Option String) : Prop :=
  (storedC = none ↔ pyStrip (pyOrEmpty cRaw) = "") ∧
  (storedCb = true ↔ (pyTruthy cbRaw = true ∨ pyStrip (pyOrEmpty cRaw) ≠ "")) ∧
  (storedC ≠ none → storedCb = true)

/-- The `RegexValidator(r'...')` test of the `study_id` form field
(forms.py 32-36): exactly three digits. -/
def isThreeDigits (s : String) : Bool :=
  s.length == 3 && s.data.all Char.isDigit

/-- Field cleaning of `study_id`: `forms.CharField` strips surrounding
whitespace (its default `strip=True`), then the regex validator runs. -/
def cleanStudyIdField (raw : String) : Except String String :=
  if isThreeDigits (pyStrip raw) then Except.ok (pyStrip raw)
  else Except.error "Enter exactly 3 digits"

/-- `self.cleaned_data.get('site') or getattr(self.user, 'site', None)`
(forms.py 65): the form site if chosen, else the user profile site.
Sites are identified by their unique name, the string interpolated into
the study id. -/
def siteOf (formSite userSite : Option String) : Option String :=
  match formSite with
  | some s => some s
  | none => userSite

/-- The duplicate queryset of `clean_study_id` (forms.py 70-72):
participants with the same full study id, the form instance itself
excluded when editing. -/
def dupQs (existing : List (Nat × String)) (full : String)
    (instancePk : Option Nat) : List (Nat × String) :=
  match instancePk with
  | some pk => (existing.filter (fun e => e.2 == full)).filter (fun e => !(e.1 == pk))
  | none => existing.filter (fun e => e.2 == full)

/-- `ParticipantForm.clean_study_id` (forms.py 63-75): existing
participants are (pk, study_id) pairs; `instancePk` is
`self.instance.pk` (set when editing, `none` on a fresh form). -/
def clean_study_id (numberPart : String) (formSite userSite : Option String)
    (existing : List (Nat × String)) (instancePk : Option Nat) :
    Except String String :=
  match siteOf formSite userSite with
  | none =>
      Except.error "Site must be specified either by selection or your user profile."
  | some s =>
      if dupQs existing (s ++ "_" ++ numberPart) instancePk = [] then
        Except.ok (s ++ "_" ++ numberPart)
      else
        Except.error "This Study ID is already registered. Please enter a unique Study ID."

/-- Full `study_id` validation of `ParticipantForm`: field cleaning and
regex first, then `clean_study_id`. -/
def participantFormValidate (raw : String) (formSite userSite : Option String)
    (existing : List (Nat × String)) (instancePk : Option Nat) :
    Except String String :=
  match cleanStudyIdField raw with
  | Except.error e => Except.error e
  | Except.ok numberPart =>
      clean_study_id numberPart formSite userSite existing instancePk

/-- The registration step of the `register_participant` view
(views.py 334-349) at the level of the stored (pk, study_id) table: on a
valid form the participant is saved, on a rejected form the table is
unchanged. -/
def register_participant (raw : String) (formSite userSite : Option String)
    (db : List (Nat × String)) (newPk : Nat) : List (Nat × String) :=
  match participantFormValidate raw formSite userSite db none with
  | Except.error _ => db
  | Except.ok full => db ++ [(newPk, full)]

/-- A participant as freshly registered: every checkbox false, every
comment null, enrolled on day 0 (so `save` stored due day 7). -/
def pDefault : Participant :=
  { study_id := "NBO_001", siteId := 1
    enrollment_date := 0, due_date := 7
    monitor_downloaded := false, monitor_downloaded_comment := none
    monitor_downloaded_at := none, monitor_downloaded_by := none
    ultrasound_downloaded := false, ultrasound_downloaded_comment := none
    ultrasound_downloaded_at := none, ultrasound_downloaded_by := none
    case_report_form_uploaded := false, case_report_form_uploaded_comment := none
    video_laryngoscope_uploaded := false, video_laryngoscope_uploaded_comment := none
    rop_final_report_uploaded := false, rop_final_report_uploaded_comment := none
    head_ultrasound_images_uploaded := false, head_ultrasound_images_uploaded_comment := none
    head_ultrasound_report_uploaded := false, head_ultrasound_report_uploaded_comment := none
    cost_effectiveness_data_uploaded := false, cost_effectiveness_data_uploaded_comment := none
    blood_culture_done := false, blood_culture_done_comment := none
    admission_notes_day1_uploaded := false, admission_notes_day1_uploaded_comment := none
    admission_notes_24hr_uploaded := false, admission_notes_24hr_uploaded_comment := none
    vital_sign_monitoring_done := false, vital_sign_monitoring_done_comment := none
    date_of_birth := none }

/-- A participant with every checkbox unchecked but every one of the
nine required comments filled in. -/
def pComments : Participant :=
  { pDefault with
    monitor_downloaded_comment := some "pending"
    ultrasound_downloaded_comment := some "pending"
    head_ultrasound_images_uploaded_comment := some "pending"
    head_ultrasound_report_uploaded_comment := some "pending"
    case_report_form_uploaded_comment := some "pending"
    video_laryngoscope_uploaded_comment := some "pending"
    rop_final_report_uploaded_comment := some "pending"
    cost_effectiveness_data_uploaded_comment := some "pending"
    admission_notes_day1_uploaded_comment := some "pending" }

/-- A participant with all twelve tracked checkboxes checked. -/
def pAll : Participant :=
  { pDefault with
    monitor_downloaded := true, ultrasound_downloaded := true
    case_report_form_uploaded := true, video_laryngoscope_uploaded := true
    rop_final_report_uploaded := true, head_ultrasound_images_uploaded := true
    head_ultrasound_report_uploaded := true, cost_effectiveness_data_uploaded := true
    blood_culture_done := true, admission_notes_day1_uploaded := true
    admission_notes_24hr_uploaded := true, vital_sign_monitoring_done := true }

/-- A participant passing every checkbox the PDF export consults, but
with `case_report_form_uploaded` and `admission_notes_day1_uploaded`
unchecked and uncommented. -/
def pPdf : Participant :=
  { pDefault with
    monitor_downloaded := true, ultrasound_downloaded := true
    video_laryngoscope_uploaded := true, rop_final_report_uploaded := true
    head_ultrasound_images_uploaded := true, head_ultrasound_report_uploaded := true
    cost_effectiveness_data_uploaded := true, blood_culture_done := true }

/-- A superuser with no role and no site. -/
def uSU : User := { id := 1, is_superuser := true, role := none, site := none }

/-- A research officer of site 1. -/
def uRO : User := { id := 2, is_superuser := false, role := some "RO", site := some 1 }

/-- A research assistant of site 1. -/
def uRA : User := { id := 3, is_superuser := false, role := some "RA", site := some 1 }

/-- A sample POST: monitor checkbox checked, an ultrasound comment with
surrounding whitespace, nothing else submitted. -/
def postEx : String → Option String := fun s =>
  if s = "monitor_downloaded" then some "on"
  else if s = "ultrasound_downloaded_comment" then some "  machine broken  "
  else none

end Tracking

namespace Tracking

/-- One step of the `is_completed` loop: a pair passes when its checkbox
or its comment is truthy. -/
theorem checkItems_cons (cb : Bool) (c : Option String)
    (rest : List (Bool × Option String)) :
    checkItems ((cb, c) :: rest) = ((cb || pyTruthy c) && checkItems rest) := by
  cases cb <;> cases hc : pyTruthy c <;> simp [checkItems, hc]

/-- The empty-list case of the `is_completed` loop. -/
theorem checkItems_nil : checkItems [] = true := rfl

/-- `is_completed` as one boolean conjunction over the nine required
pairs. -/
theorem is_completed_eq (p : Participant) :
    p.is_completed =
      ((p.monitor_downloaded || pyTruthy p.monitor_downloaded_comment) &&
       ((p.ultrasound_downloaded || pyTruthy p.ultrasound_downloaded_comment) &&
        ((p.head_ultrasound_images_uploaded || pyTruthy p.head_ultrasound_images_uploaded_comment) &&
         ((p.head_ultrasound_report_uploaded || pyTruthy p.head_ultrasound_report_uploaded_comment) &&
          ((p.case_report_form_uploaded || pyTruthy p.case_report_form_uploaded_comment) &&
           ((p.video_laryngoscope_uploaded || pyTruthy p.video_laryngoscope_uploaded_comment) &&
            ((p.rop_final_report_uploaded || pyTruthy p.rop_final_report_uploaded_comment) &&
             ((p.cost_effectiveness_data_uploaded || pyTruthy p.cost_effectiveness_data_uploaded_comment) &&
              (p.admission_notes_day1_uploaded || pyTruthy p.admission_notes_day1_uploaded_comment))))))))) := by
  simp only [Participant.is_completed, Participant.required_items, checkItems_cons,
    checkItems_nil, Bool.and_true]

/-- "ROP Exam" is always collected as missing: `rop_exam_done` does not
exist on the model, so the `getattr` default `False` always fires. -/
theorem ropExam_mem_missingItems (p : Participant) :
    "ROP Exam" ∈ missingItems p := by
  simp [missingItems, ropExamDone]

/-- C1: For every Participant and every enrollment_date, saving the
participant sets due_date to enrollment_date plus exactly 7 days,
recomputing it on every save regardless of any previously stored
due_date value. -/
theorem save_recomputes_due_date (p : Participant) (stored : Int) :
    ({ p with due_date := stored } : Participant).save.due_date
      = p.enrollment_date + 7 := by
  simp [Participant.save]

/-- C2: `is_completed` returns true iff each of the nine required
(checkbox, comment) pairs has its checkbox true or its comment non-empty,
and the fields outside the list (`blood_culture_done`,
`admission_notes_24hr_uploaded`, `vital_sign_monitoring_done`, with
their comments) do not affect the result. -/
theorem is_completed_iff (p : Participant) :
    (p.is_completed = true ↔
      ((p.monitor_downloaded || pyTruthy p.monitor_downloaded_comment) = true ∧
       (p.ultrasound_downloaded || pyTruthy p.ultrasound_downloaded_comment) = true ∧
       (p.head_ultrasound_images_uploaded || pyTruthy p.head_ultrasound_images_uploaded_comment) = true ∧
       (p.head_ultrasound_report_uploaded || pyTruthy p.head_ultrasound_report_uploaded_comment) = true ∧
       (p.case_report_form_uploaded || pyTruthy p.case_report_form_uploaded_comment) = true ∧
       (p.video_laryngoscope_uploaded || pyTruthy p.video_laryngoscope_uploaded_comment) = true ∧
       (p.rop_final_report_uploaded || pyTruthy p.rop_final_report_uploaded_comment) = true ∧
       (p.cost_effectiveness_data_uploaded || pyTruthy p.cost_effectiveness_data_uploaded_comment) = true ∧
       (p.admission_notes_day1_uploaded || pyTruthy p.admission_notes_day1_uploaded_comment) = true))
    ∧ ∀ (b1 b2 b3 : Bool) (c1 c2 c3 : Option String),
        ({ p with blood_culture_done := b1, blood_culture_done_comment := c1,
                  admission_notes_24hr_uploaded := b2,
                  admission_notes_24hr_uploaded_comment := c2,
                  vital_sign_monitoring_done := b3,
                  vital_sign_monitoring_done_comment := c3 } : Participant).is_completed
          = p.is_completed := by
  constructor
  · rw [is_completed_eq]
    simp [Bool.and_eq_true]
  · intro b1 b2 b3 c1 c2 c3
    rfl

/-- C5: `status_color` returns "overdue" iff days_remaining is negative,
"green" iff days_remaining ≥ 4, "yellow" iff 2 ≤ days_remaining ≤ 3 and
"red" iff 0 ≤ days_remaining ≤ 1; the four cases partition every value of
days_remaining. -/
theorem status_color_cases (p : Participant) (today : Int) :
    (p.status_color today = "overdue" ↔ p.days_remaining today < 0) ∧
    (p.status_color today = "green" ↔ 4 ≤ p.days_remaining today) ∧
    (p.status_color today = "yellow" ↔
      2 ≤ p.days_remaining today ∧ p.days_remaining today ≤ 3) ∧
    (p.status_color today = "red" ↔
      0 ≤ p.days_remaining today ∧ p.days_remaining today ≤ 1) ∧
    (p.status_color today = "overdue" ∨ p.status_color today = "green" ∨
     p.status_color today = "yellow" ∨ p.status_color today = "red") := by
  unfold Participant.status_color
  set d := p.days_remaining today with hd
  clear_value d
  by_cases h1 : d ≥ 4 <;> by_cases h2 : 2 ≤ d ∧ d ≤ 3 <;>
    by_cases h3 : 0 ≤ d ∧ d ≤ 1 <;>
    simp [statusColorOf, h1, h2, h3] <;> omega

/-- C3: the per-participant body of `send_ro_reminders` raises
`AttributeError` for every participant on every date: `rop_exam_done`
does not exist so "ROP Exam" is always missing, and the rop-note block
then reads the nonexistent `rop_due_date` attribute.  The command
therefore never completes and never sends a reminder. -/
theorem send_ro_reminders_always_raises (p : Participant) (today : Int) :
    processParticipant p today =
      Except.error "AttributeError: rop_due_date" := by
  have hmem := ropExam_mem_missingItems p
  have hne : missingItems p ≠ [] := by
    intro h
    rw [h] at hmem
    exact List.not_mem_nil _ hmem
  simp [processParticipant, ropNote, hne, hmem]

/-- C4: a freshly registered participant one day before its due date has
missing items, and the grouping criterion (send_ro_reminders.py 72-75)
would place it in the "due" group; but the loop body raises
`AttributeError` on `rop_due_date` before the grouping runs, so the
participant is placed in no group and no reminder is triggered. -/
theorem grouping_unreachable_on_default :
    missingItems pDefault ≠ [] ∧
    pDefault.days_remaining 6 = 1 ∧
    groupOf (pDefault.days_remaining 6) = some ReminderGroup.due ∧
    processParticipant pDefault 6 =
      Except.error "AttributeError: rop_due_date" := by
  refine ⟨by decide, rfl, rfl, rfl⟩

/-- C6 counterexample: a participant with every checkbox unchecked but
every required comment filled satisfies `is_completed` yet is not
classified as completed by the dashboard helper, refuting the claimed
equivalence. -/
theorem completed_vs_is_completed_counterexample :
    pComments.is_completed = true ∧
    completed_participants [pComments] = [] := by
  refine ⟨by decide, by decide⟩

/-- C6 amended: `completed_participants` keeps exactly the participants
whose ten checkboxes (the nine required-item checkboxes plus
`blood_culture_done`) are all true, ignoring comments; that condition
implies `is_completed` but, as the counterexample shows, not
conversely. -/
theorem completed_participants_characterization
    (ps : List Participant) (p : Participant) :
    (p ∈ completed_participants ps ↔ p ∈ ps ∧ completedCheckboxes p = true) ∧
    (completedCheckboxes p = true → p.is_completed = true) := by
  constructor
  · simp [completed_participants, List.mem_filter]
  · intro h
    rw [is_completed_eq]
    simp only [completedCheckboxes, Bool.and_eq_true] at h
    simp [Bool.and_eq_true, Bool.or_eq_true]
    tauto

/-- Witness for the amended C6 at a concrete participant. -/
theorem completed_participants_characterization_witness :
    pAll.is_completed = true :=
  (completed_participants_characterization [pAll] pAll).2 (by decide)

/-- C7 counterexample: a participant with the eight checkboxes the PDF
export consults all true, but `case_report_form_uploaded` unchecked and
uncommented, appears in the exported list while `is_completed` is false,
refuting the claimed equivalence with the completion predicate. -/
theorem pdf_vs_is_completed_counterexample :
    download_completed_pdf uSU [pPdf] = some [pPdf] ∧
    pPdf.is_completed = false := by
  refine ⟨by decide, by decide⟩

/-- C7 amended: when the requester passes the PI/superuser gate, a
participant appears in the exported list iff it is visible to the
requester and the eight consulted checkboxes (`monitor_downloaded`,
`ultrasound_downloaded` and the six of the comprehension) are all true;
comments, `case_report_form_uploaded` and
`admission_notes_day1_uploaded` are not consulted. -/
theorem download_pdf_characterization (u : User) (db : List Participant)
    (p : Participant) (res : List Participant)
    (h : download_completed_pdf u db = some res) :
    p ∈ res ↔ p ∈ get_user_participants u db ∧
      (p.monitor_downloaded && p.ultrasound_downloaded) = true ∧
      fullyCompletedCheck p = true := by
  unfold download_completed_pdf at h
  split at h
  · exact Option.noConfusion h
  · simp only [Option.some.injEq] at h
    subst h
    simp only [List.mem_filter, Bool.and_eq_true]
    tauto

/-- Witness for the amended C7 at a concrete input. -/
theorem download_pdf_characterization_witness :
    pPdf ∈ get_user_participants uSU [pPdf] ∧
      (pPdf.monitor_downloaded && pPdf.ultrasound_downloaded) = true ∧
      fullyCompletedCheck pPdf = true :=
  (download_pdf_characterization uSU [pPdf] pPdf [pPdf] (by decide)).mp
    (by decide)

/-- The quick-mark guard fails exactly when the requester is not
authorized. -/
theorem markGuardFails_eq_false_iff (u : User) (p : Participant) :
    markGuardFails u p = false ↔ canMark u p := by
  unfold markGuardFails canMark
  cases hsu : u.is_superuser with
  | false =>
    simp [hsu]
    tauto
  | true => simp [hsu]

/-- C8: on a POST request, the quick-mark views apply the update (and
`save`) iff the requester is a superuser or an RO/AD of the
participant's site; otherwise they return the forbidden page and leave
the participant unchanged. -/
theorem mark_views_access (u : User) (p : Participant) (now : Int) :
    (canMark u p →
      mark_monitor_downloaded u "POST" p now =
        (MarkResponse.redirectRoDashboard,
          Participant.save { p with monitor_downloaded := true,
                                    monitor_downloaded_at := some now,
                                    monitor_downloaded_by := some u.id }) ∧
      mark_ultrasound_downloaded u "POST" p now =
        (MarkResponse.redirectRoDashboard,
          Participant.save { p with ultrasound_downloaded := true,
                                    ultrasound_downloaded_at := some now,
                                    ultrasound_downloaded_by := some u.id })) ∧
    (¬canMark u p →
      mark_monitor_downloaded u "POST" p now = (MarkResponse.forbidden, p) ∧
      mark_ultrasound_downloaded u "POST" p now = (MarkResponse.forbidden, p)) := by
  constructor
  · intro hc
    have hg : markGuardFails u p = false :=
      (markGuardFails_eq_false_iff u p).mpr hc
    simp [mark_monitor_downloaded, mark_ultrasound_downloaded, hg]
  · intro hc
    have hg : markGuardFails u p = true := by
      cases hgf : markGuardFails u p
      · exact absurd ((markGuardFails_eq_false_iff u p).mp hgf) hc
      · rfl
    simp [mark_monitor_downloaded, mark_ultrasound_downloaded, hg]

/-- Witness for C8: an RO of the participant's site gets the update, an
RA of the same site gets the forbidden page with no change. -/
theorem mark_views_access_witness :
    mark_monitor_downloaded uRO "POST" pDefault 5 =
      (MarkResponse.redirectRoDashboard,
        Participant.save { pDefault with monitor_downloaded := true,
                                         monitor_downloaded_at := some 5,
                                         monitor_downloaded_by := some uRO.id }) ∧
    mark_monitor_downloaded uRA "POST" pDefault 5 =
      (MarkResponse.forbidden, pDefault) :=
  ⟨((mark_views_access uRO pDefault 5).1 (by unfold canMark; decide)).1,
   ((mark_views_access uRA pDefault 5).2 (by unfold canMark; decide)).1⟩

/-- The normalized pair written by the update loop satisfies the claimed
per-pair postcondition. -/
theorem pairOK_norm (cbRaw cRaw : Option String) :
    pairOK (normCheckbox cbRaw cRaw) (normComment cRaw) cbRaw cRaw := by
  unfold pairOK normCheckbox normComment
  cases h : (pyStrip (pyOrEmpty cRaw)).isEmpty with
  | true =>
    have h' : pyStrip (pyOrEmpty cRaw) = "" := (String.isEmpty_iff _).mp h
    have hE : "".isEmpty = true := rfl
    simp [h, h', hE]
  | false =>
    have h' : ¬pyStrip (pyOrEmpty cRaw) = "" := by
      intro hh
      rw [hh] at h
      exact absurd h (by decide)
    simp [h, h']

/-- C9: after a successful POST to `update_participant`, each of the
twelve (checkbox, comment) pairs satisfies the normalization
postcondition — stored comment null iff the submission is blank after
trimming, checkbox true iff checked or commented, hence non-null comment
implies a true checkbox — and `study_id`, site, `enrollment_date` and
`date_of_birth` are unchanged. -/
theorem update_participant_fields (u : User) (post : String → Option String)
    (p : Participant)
    (hu : u.role = some "RO" ∨ u.role = some "AD" ∨ u.is_superuser = true) :
    pairOK (update_participant u "POST" post p).2.monitor_downloaded
      (update_participant u "POST" post p).2.monitor_downloaded_comment
      (post "monitor_downloaded") (post "monitor_downloaded_comment") ∧
    pairOK (update_participant u "POST" post p).2.ultrasound_downloaded
      (update_participant u "POST" post p).2.ultrasound_downloaded_comment
      (post "ultrasound_downloaded") (post "ultrasound_downloaded_comment") ∧
    pairOK (update_participant u "POST" post p).2.case_report_form_uploaded
      (update_participant u "POST" post p).2.case_report_form_uploaded_comment
      (post "case_report_form_uploaded") (post "case_report_form_uploaded_comment") ∧
    pairOK (update_participant u "POST" post p).2.video_laryngoscope_uploaded
      (update_participant u "POST" post p).2.video_laryngoscope_uploaded_comment
      (post "video_laryngoscope_uploaded") (post "video_laryngoscope_uploaded_comment") ∧
    pairOK (update_participant u "POST" post p).2.rop_final_report_uploaded
      (update_participant u "POST" post p).2.rop_final_report_uploaded_comment
      (post "rop_final_report_uploaded") (post "rop_final_report_uploaded_comment") ∧
    pairOK (update_participant u "POST" post p).2.head_ultrasound_images_uploaded
      (update_participant u "POST" post p).2.head_ultrasound_images_uploaded_comment
      (post "head_ultrasound_images_uploaded") (post "head_ultrasound_images_uploaded_comment") ∧
    pairOK (update_participant u "POST" post p).2.head_ultrasound_report_uploaded
      (update_participant u "POST" post p).2.head_ultrasound_report_uploaded_comment
      (post "head_ultrasound_report_uploaded") (post "head_ultrasound_report_uploaded_comment") ∧
    pairOK (update_participant u "POST" post p).2.cost_effectiveness_data_uploaded
      (update_participant u "POST" post p).2.cost_effectiveness_data_uploaded_comment
      (post "cost_effectiveness_data_uploaded") (post "cost_effectiveness_data_uploaded_comment") ∧
    pairOK (update_participant u "POST" post p).2.blood_culture_done
      (update_participant u "POST" post p).2.blood_culture_done_comment
      (post "blood_culture_done") (post "blood_culture_done_comment") ∧
    pairOK (update_participant u "POST" post p).2.admission_notes_day1_uploaded
      (update_participant u "POST" post p).2.admission_notes_day1_uploaded_comment
      (post "admission_notes_day1_uploaded") (post "admission_notes_day1_uploaded_comment") ∧
    pairOK (update_participant u "POST" post p).2.admission_notes_24hr_uploaded
      (update_participant u "POST" post p).2.admission_notes_24hr_uploaded_comment
      (post "admission_notes_24hr_uploaded") (post "admission_notes_24hr_uploaded_comment") ∧
    pairOK (update_participant u "POST" post p).2.vital_sign_monitoring_done
      (update_participant u "POST" post p).2.vital_sign_monitoring_done_comment
      (post "vital_sign_monitoring_done") (post "vital_sign_monitoring_done_comment") ∧
    (update_participant u "POST" post p).2.study_id = p.study_id ∧
    (update_participant u "POST" post p).2.siteId = p.siteId ∧
    (update_participant u "POST" post p).2.enrollment_date = p.enrollment_date ∧
    (update_participant u "POST" post p).2.date_of_birth = p.date_of_birth := by
  have h2 : (update_participant u "POST" post p).2 = (appliedUpdate post p).save := by
    unfold update_participant
    rw [if_neg (not_not_intro hu), if_pos rfl]
  rw [h2]
  exact ⟨pairOK_norm _ _, pairOK_norm _ _, pairOK_norm _ _, pairOK_norm _ _,
    pairOK_norm _ _, pairOK_norm _ _, pairOK_norm _ _, pairOK_norm _ _,
    pairOK_norm _ _, pairOK_norm _ _, pairOK_norm _ _, pairOK_norm _ _,
    rfl, rfl, rfl, rfl⟩

/-- Witness for C9 at a concrete RO user, POST payload and
participant. -/
theorem update_participant_fields_witness :
    pairOK (update_participant uRO "POST" postEx pDefault).2.monitor_downloaded
      (update_participant uRO "POST" postEx pDefault).2.monitor_downloaded_comment
      (postEx "monitor_downloaded") (postEx "monitor_downloaded_comment") :=
  (update_participant_fields uRO postEx pDefault (Or.inl rfl)).1

/-- `dupQs` holds exactly the existing rows with the full study id,
other than the form instance itself. -/
theorem mem_dupQs (existing : List (Nat × String)) (full : String)
    (instancePk : Option Nat) (e : Nat × String) :
    e ∈ dupQs existing full instancePk ↔
      e ∈ existing ∧ e.2 = full ∧ instancePk ≠ some e.1 := by
  cases instancePk with
  | none => simp [dupQs, List.mem_filter]
  | some pk =>
    simp only [dupQs, List.mem_filter, Bool.not_eq_true', beq_eq_false_iff_ne,
      beq_iff_eq, ne_eq, Option.some.injEq, and_assoc]
    constructor
    · rintro ⟨h1, h2, h3⟩
      exact ⟨h1, h2, fun hh => h3 hh.symm⟩
    · rintro ⟨h1, h2, h3⟩
      exact ⟨h1, h2, fun hh => h3 hh.symm⟩

/-- A study id passing the field regex makes the form fall through to
`clean_study_id` on the stripped digits. -/
theorem participantFormValidate_eq (raw : String)
    (formSite userSite : Option String) (existing : List (Nat × String))
    (instancePk : Option Nat) (h3 : isThreeDigits (pyStrip raw) = true) :
    participantFormValidate raw formSite userSite existing instancePk =
      clean_study_id (pyStrip raw) formSite userSite existing instancePk := by
  unfold participantFormValidate cleanStudyIdField
  rw [if_pos h3]

/-- A study id failing the field regex is rejected before
`clean_study_id` runs. -/
theorem participantFormValidate_reject (raw : String)
    (formSite userSite : Option String) (existing : List (Nat × String))
    (instancePk : Option Nat) (h3 : isThreeDigits (pyStrip raw) = false) :
    participantFormValidate raw formSite userSite existing instancePk =
      Except.error "Enter exactly 3 digits" := by
  unfold participantFormValidate cleanStudyIdField
  rw [if_neg (by rw [h3]; exact Bool.false_ne_true)]

/-- With no determinable site, `clean_study_id` rejects. -/
theorem clean_study_id_no_site (numberPart : String)
    (formSite userSite : Option String) (existing : List (Nat × String))
    (instancePk : Option Nat) (hs : siteOf formSite userSite = none) :
    clean_study_id numberPart formSite userSite existing instancePk =
      Except.error "Site must be specified either by selection or your user profile." := by
  unfold clean_study_id
  rw [hs]

/-- With a determined site, `clean_study_id` is the duplicate check on
the composed full study id. -/
theorem clean_study_id_site (numberPart : String)
    (formSite userSite : Option String) (existing : List (Nat × String))
    (instancePk : Option Nat) (s : String)
    (hs : siteOf formSite userSite = some s) :
    clean_study_id numberPart formSite userSite existing instancePk =
      (if dupQs existing (s ++ "_" ++ numberPart) instancePk = [] then
        Except.ok (s ++ "_" ++ numberPart)
      else
        Except.error "This Study ID is already registered. Please enter a unique Study ID.") := by
  unfold clean_study_id
  rw [hs]

/-- C10: `ParticipantForm` accepts as study id only (after the standard
whitespace strip of `CharField`) a string of exactly three digits,
stores the full id as site name, underscore and the digits, rejects
when no site is determinable or a different participant already holds
the same full id, and on rejection the registration view creates no
participant. -/
theorem participant_form_spec (raw : String) (formSite userSite : Option String)
    (existing : List (Nat × String)) (instancePk : Option Nat) :
    (∀ full,
      participantFormValidate raw formSite userSite existing instancePk =
          Except.ok full →
        isThreeDigits (pyStrip raw) = true ∧
        ∃ s, siteOf formSite userSite = some s ∧
          full = s ++ "_" ++ pyStrip raw ∧
          ∀ e ∈ existing, e.2 = full → instancePk = some e.1) ∧
    (isThreeDigits (pyStrip raw) = false →
      ∃ msg, participantFormValidate raw formSite userSite existing instancePk =
        Except.error msg) ∧
    (siteOf formSite userSite = none →
      ∃ msg, participantFormValidate raw formSite userSite existing instancePk =
        Except.error msg) ∧
    (∀ s e, siteOf formSite userSite = some s → e ∈ existing →
      e.2 = s ++ "_" ++ pyStrip raw → instancePk ≠ some e.1 →
      ∃ msg, participantFormValidate raw formSite userSite existing instancePk =
        Except.error msg) ∧
    (∀ newPk msg,
      participantFormValidate raw formSite userSite existing none =
          Except.error msg →
        register_participant raw formSite userSite existing newPk = existing) := by
  refine ⟨?_, ?_, ?_, ?_, ?_⟩
  · intro full h
    cases h3 : isThreeDigits (pyStrip raw) with
    | false =>
      rw [participantFormValidate_reject raw formSite userSite existing instancePk h3] at h
      exact Except.noConfusion h
    | true =>
      rw [participantFormValidate_eq raw formSite userSite existing instancePk h3] at h
      refine ⟨rfl, ?_⟩
      cases hs : siteOf formSite userSite with
      | none =>
        rw [clean_study_id_no_site _ formSite userSite existing instancePk hs] at h
        exact Except.noConfusion h
      | some s =>
        rw [clean_study_id_site _ formSite userSite existing instancePk s hs] at h
        by_cases hq : dupQs existing (s ++ "_" ++ pyStrip raw) instancePk = []
        · rw [if_pos hq] at h
          simp only [Except.ok.injEq] at h
          refine ⟨s, rfl, h.symm, ?_⟩
          intro e he hfull
          by_contra hne
          have hm : e ∈ dupQs existing (s ++ "_" ++ pyStrip raw) instancePk :=
            (mem_dupQs existing _ instancePk e).mpr
              ⟨he, by rw [hfull, ← h], hne⟩
          rw [hq] at hm
          exact List.not_mem_nil _ hm
        · rw [if_neg hq] at h
          exact Except.noConfusion h
  · intro h3
    exact ⟨_, participantFormValidate_reject raw formSite userSite existing instancePk h3⟩
  · intro hs
    cases h3 : isThreeDigits (pyStrip raw) with
    | false =>
      exact ⟨_, participantFormValidate_reject raw formSite userSite existing instancePk h3⟩
    | true =>
      rw [participantFormValidate_eq raw formSite userSite existing instancePk h3,
        clean_study_id_no_site _ formSite userSite existing instancePk hs]
      exact ⟨_, rfl⟩
  · intro s e hs he hfull hpk
    cases h3 : isThreeDigits (pyStrip raw) with
    | false =>
      exact ⟨_, participantFormValidate_reject raw formSite userSite existing instancePk h3⟩
    | true =>
      rw [participantFormValidate_eq raw formSite userSite existing instancePk h3,
        clean_study_id_site _ formSite userSite existing instancePk s hs]
      have hm : e ∈ dupQs existing (s ++ "_" ++ pyStrip raw) instancePk :=
        (mem_dupQs existing _ instancePk e).mpr ⟨he, hfull, hpk⟩
      rw [if_neg (fun hq => List.not_mem_nil e (by rw [hq] at hm; exact hm))]
      exact ⟨_, rfl⟩
  · intro newPk msg h
    unfold register_participant
    rw [h]

/-- Witness for C10: a two-digit entry is rejected by the validator. -/
theorem participant_form_spec_witness :
    ∃ msg, participantFormValidate "12" none (some "NBO") [] none =
      Except.error msg :=
  (participant_form_spec "12" none (some "NBO") [] none).2.1 (by decide)

end Tracking
